import Mathlib

/-!
Shallow embedding of the `labterm` terminal-dashboard toolkit
(`src/labterm/dashboard.py`, `src/labterm/dashboard_item.py`,
`src/labterm/instrument.py`) together with proofs settling the frozen
claims about its update/render/input cycle.

Modelling conventions:
* Python `None`-able attributes become `Option` fields.
* Numeric values are modelled as `ℚ`; every decimal string the edit buffer
  can hold denotes an exact rational, so Python-float rounding never shows
  up in the properties under study.
* Mutable item objects are identified by their index in `Dashboard.items`
  (items are appended once at setup time and mutated in place afterwards).
* A raised Python exception is an `Except.error` carrying the exception
  class; a caught-and-ignored exception stays inside the embedded function.
* Synchronous `instrument.action(...)` invocations are recorded in a trace
  field `calls` of the dashboard state (channel, action id, optional
  numeric argument), standing for the side effect on the instrument.
* Screen-geometry fields of `DashboardItem` (`x`, `y`, alignment, offsets,
  decoration text) are omitted: no claim concerns rendering geometry, only
  the `selected` flag passed to `draw`.
-/

/-- Heterogeneous instrument/item values: Python bool, number or string. -/
inductive Value where
  | bool (b : Bool)
  | num (q : ℚ)
  | str (s : String)
deriving DecidableEq

/-- The `_edit_buffer` attribute of `Editable`.  It normally holds a string
(`enter_edit` resets it to `''`), but `__init__` stores `initial_value` and
the failed-parse branch of `handle_edit_key` stores `self.value`, so the
attribute can also hold a raw (possibly `None`) value object. -/
inductive EditBuffer where
  | str (s : String)
  | raw (v : Option Value)
deriving DecidableEq

/-- Identity of a logging callback; the dashboard installs its own `_log`. -/
inductive LoggerRef where
  | dashboardLog
deriving DecidableEq

/-- Python exception classes raised by the embedded code paths. -/
inductive PyError where
  | typeError
  | keyError
  | valueError
deriving DecidableEq

/-- Embedding of `Instrument` (instrument.py): channel id, `data` dict (whose values may
be `None`), and the optional logger callback installed by the dashboard. -/
structure Instrument where
  channel : Int
  data : List (String × Option Value)
  logger : Option LoggerRef
deriving DecidableEq

/-- Python `dict.get` on `Instrument.data`: `None` both for a missing key and for a
key stored with value `None`. -/
def Instrument.dataGet (ins : Instrument) (k : String) : Option Value :=
  match ins.data.find? (fun p => p.1 == k) with
  | some p => p.2
  | none => none

/-- Embedding of `DashboardItem` (dashboard_item.py), restricted to the fields the
update/input cycle reads.  `navigable`/`editable` are the class-level flags
(`Label`/`Readonly`/`Light`: both false; `Switch`: navigable only;
`Editable`: both true).  `editBuffer`/`itemEditing` embed the
`Editable`-specific attributes `_edit_buffer` and `_editing`. -/
structure DashboardItem where
  xgrid : Option Int
  ygrid : Option Int
  channel : Option Int
  data : Option String
  action : Option String
  value : Option Value
  navigable : Bool
  editable : Bool
  editBuffer : EditBuffer
  itemEditing : Bool
deriving DecidableEq

/-- One recorded `instrument.action(...)` call: channel the instrument was
looked up under, the action id passed, and the numeric argument if any. -/
structure ActionCall where
  channel : Int
  actionId : Option String
  arg : Option ℚ
deriving DecidableEq

/-- The mutable state of `Dashboard` (dashboard.py) that the claims touch.
`calls` is the trace of synchronous action dispatches (see module header);
`dataQueue` holds the pending update batches, each a list of
(item index, new value) pairs. -/
structure Dashboard where
  items : List DashboardItem
  instruments : List (Int × Instrument)
  gridX : Int
  gridY : Int
  cycle : Bool
  editing : Bool
  invertedColors : Bool
  logMessages : List String
  maxLogMessages : Nat
  dataQueue : List (List (Nat × Value))
  calls : List ActionCall
deriving DecidableEq

/-- State built by `Dashboard.__init__` with the default arguments (`cycle=True`,
`grid_start=(0, 0)`, `max_log_messages=6`), before any
`add_instruments`/`add_items` call. -/
def Dashboard.init : Dashboard :=
  { items := []
    instruments := []
    gridX := 0
    gridY := 0
    cycle := true
    editing := false
    invertedColors := false
    logMessages := []
    maxLogMessages := 6
    dataQueue := []
    calls := [] }

/-! ### Dict and list helpers (Python dict / list-index semantics) -/

/-- Lookup in the channel-keyed instrument dict. -/
def lookupChannel : List (Int × Instrument) → Int → Option Instrument
  | [], _ => none
  | (k, v) :: rest, c => if k = c then some v else lookupChannel rest c

/-- Python `self.instruments.update` with a one-key dict: replace the binding of an existing
key in place, otherwise append the new binding. -/
def dictUpdate : List (Int × Instrument) → Int → Instrument → List (Int × Instrument)
  | [], k, v => [(k, v)]
  | (k', v') :: rest, k, v =>
      if k' = k then (k, v) :: rest else (k', v') :: dictUpdate rest k v

/-- Replace the element at an index (no-op when out of range), modelling a
mutation of the object stored at that position of `self.items`. -/
def modifyNth (f : α → α) : List α → Nat → List α
  | [], _ => []
  | x :: rest, 0 => f x :: rest
  | x :: rest, n + 1 => x :: modifyNth f rest n

def setNth (l : List α) (i : Nat) (a : α) : List α :=
  modifyNth (fun _ => a) l i

/-- Python `enumerate(items)` starting from a given index. -/
def enumFrom : Nat → List α → List (Nat × α)
  | _, [] => []
  | i, x :: rest => (i, x) :: enumFrom (i + 1) rest

/-- The last element of a list satisfying a predicate, scanning in arrival
order ("last write wins"). -/
def lastSat (p : α → Bool) : List α → Option α
  | [] => none
  | a :: l =>
      match lastSat p l with
      | some x => some x
      | none => if p a then some a else none

/-! ### Python `float()` on edit-buffer contents

`Editable.handle_edit_key` only ever appends characters drawn from ASCII
digits, `'.'` and `'-'` to a string buffer, so the parser below implements
Python `float()` restricted to strings over that alphabet: an optional
single leading sign, at most one dot, and at least one digit. -/

def digitsVal (l : List Char) : ℕ :=
  l.foldl (fun acc c => 10 * acc + (c.toNat - 48)) 0

/-- Accept a digit string with at most one embedded dot and at least one
digit, and read off its exact decimal value. -/
def parseUnsigned (l : List Char) (sign : ℚ) : Option ℚ :=
  if l.any (fun c => !(c.isDigit || c == '.')) then none
  else if 1 < l.countP (fun c => c == '.') then none
  else if !(l.any Char.isDigit) then none
  else
    let intPart := l.takeWhile (fun c => c != '.')
    let fracPart := (l.dropWhile (fun c => c != '.')).drop 1
    some (sign * ((digitsVal intPart : ℚ) + (digitsVal fracPart : ℚ) / (10 : ℚ) ^ fracPart.length))

def parseFloat (s : String) : Option ℚ :=
  if s.data.head? = some '-' then parseUnsigned s.data.tail (-1)
  else parseUnsigned s.data 1

/-- Python `float(self._edit_buffer)`: on a string, parse (raising `ValueError` on
failure); on a raw Python value: floats pass through, bools coerce to 0/1,
strings parse, `None` raises `TypeError` (which `except ValueError` would
not catch). -/
def pyFloat : EditBuffer → Except PyError ℚ
  | .str s =>
      match parseFloat s with
      | some q => .ok q
      | none => .error .valueError
  | .raw (some (.num q)) => .ok q
  | .raw (some (.bool b)) => .ok (if b then 1 else 0)
  | .raw (some (.str s)) =>
      match parseFloat s with
      | some q => .ok q
      | none => .error .valueError
  | .raw none => .error .typeError

instance {ε α : Type} [DecidableEq ε] [DecidableEq α] : DecidableEq (Except ε α)
  | .error e, .error f =>
      if h : e = f then .isTrue (congrArg Except.error h)
      else .isFalse (fun hh => h (Except.error.inj hh))
  | .error _, .ok _ => .isFalse Except.noConfusion
  | .ok _, .error _ => .isFalse Except.noConfusion
  | .ok x, .ok y =>
      if h : x = y then .isTrue (congrArg Except.ok h)
      else .isFalse (fun hh => h (Except.ok.inj hh))

/-! ### Keyboard codes (curses) -/

def KEY_DOWN : Nat := 258
def KEY_UP : Nat := 259
def KEY_LEFT : Nat := 260
def KEY_RIGHT : Nat := 261
def KEY_BACKSPACE : Nat := 263

/-- Python `chr(key).isdigit()` for the ASCII keyboard range delivered by
`getch` for ordinary numeral keys. -/
def isDigitKey (k : Nat) : Bool := 48 ≤ k && k ≤ 57

/-- Python `chr(key) in '.-'`. -/
def isDotDashKey (k : Nat) : Bool := k == 46 || k == 45

/-! ### DashboardItem operations (dashboard_item.py) -/

/-- Embedding of `Editable.enter_edit` (`_editing = True; _edit_buffer = ''`); the base
class implementation is a no-op, and the call site only reaches it on
editable items. -/
def DashboardItem.enter_edit (it : DashboardItem) : DashboardItem :=
  if it.editable then { it with itemEditing := true, editBuffer := .str "" } else it

/-- Embedding of `Editable.exit_edit` (`_editing = False`); base class: no-op. -/
def DashboardItem.exit_edit (it : DashboardItem) : DashboardItem :=
  if it.editable then { it with itemEditing := false } else it

/-- Embedding of `Editable.handle_edit_key`, returning `(end_edit, commit_value)` plus
the mutated item.  For a non-editable item the base-class method returns
`None`, which the caller `_handle_edit_input` unpacks into two names,
raising `TypeError`; that raise is surfaced here.  String slicing or
concatenation on a raw (non-string) buffer would likewise raise
`TypeError`. -/
def DashboardItem.handle_edit_key (it : DashboardItem) (key : Nat) :
    Except PyError (Bool × Option ℚ × DashboardItem) :=
  if !it.editable then .error .typeError
  else if key = 27 then
    .ok (true, none, it)
  else if key = 10 then
    match pyFloat it.editBuffer with
    | .ok q => .ok (true, some q, { it with value := some (.num q) })
    | .error .valueError =>
        .ok (true, some 0, { it with editBuffer := .raw it.value })
    | .error e => .error e
  else if key = 127 || key = KEY_BACKSPACE then
    match it.editBuffer with
    | .str s => .ok (false, some 0, { it with editBuffer := .str (s.dropRight 1) })
    | .raw _ => .error .typeError
  else if isDigitKey key || isDotDashKey key then
    match it.editBuffer with
    | .str s => .ok (false, some 0, { it with editBuffer := .str (s.push (Char.ofNat key)) })
    | .raw _ => .error .typeError
  else
    .ok (false, none, it)

/-! ### Dashboard operations (dashboard.py) -/

/-- Worker for `_get_item_at_grid`, carrying the enumeration index. -/
def find_item_at (x y : Int) : List DashboardItem → Nat → Option (Nat × DashboardItem)
  | [], _ => none
  | it :: rest, i =>
      if it.navigable = true ∧ it.xgrid = some x ∧ it.ygrid = some y then some (i, it)
      else find_item_at x y rest (i + 1)

/-- Embedding of `Dashboard._get_item_at_grid`: first navigable item whose grid
coordinates match, with its index, else `None`. -/
def get_item_at_grid (items : List DashboardItem) (x y : Int) : Option (Nat × DashboardItem) :=
  find_item_at x y items 0

/-- Python `max(...)` over a list of coordinates; the call sites only reach it on
non-empty coordinate lists (there is at least one navigable item, and the
library's navigable item classes require grid coordinates). -/
def intMax : List Int → Int
  | [] => 0
  | x :: xs => xs.foldl max x

def navigableItems (d : Dashboard) : List DashboardItem :=
  d.items.filter (fun it => it.navigable)

/-- Python `max(item.xgrid for item in navigable_items)`. -/
def maxNavX (d : Dashboard) : Int :=
  intMax ((navigableItems d).filterMap (fun it => it.xgrid))

/-- Python `max(item.ygrid for item in navigable_items)`. -/
def maxNavY (d : Dashboard) : Int :=
  intMax ((navigableItems d).filterMap (fun it => it.ygrid))

/-- Embedding of `Dashboard._log` without the wall-clock timestamp prefix: append the
message and drop the oldest one when over the display limit. -/
def Dashboard.pushLog (d : Dashboard) (msg : String) : Dashboard :=
  let msgs := d.logMessages ++ [msg]
  { d with logMessages := if d.maxLogMessages < msgs.length then msgs.drop 1 else msgs }

/-- The warning `_handle_navigation_input` logs for an item with no channel
or no action (the Python message interpolates the grid coordinates). -/
def missingBindingWarning : String := "Warning: Item missing channel or action"

/-- Embedding of `Dashboard._handle_navigation_input`.  Returns the updated dashboard
and the boolean the Python method returns (`False` ends the main loop).
Unpacking the `None` returned by `_get_item_at_grid` raises `TypeError`;
`self.instruments[item.channel]` raises `KeyError` when the channel is not
registered (a looked-up `Instrument` object is always truthy, so the
`No instrument found` logging branch below the lookup is unreachable). -/
def handle_navigation_input (d : Dashboard) (key : Nat) :
    Except PyError (Dashboard × Bool) :=
  if (navigableItems d).isEmpty then
    if key = 105 then .ok ({ d with invertedColors := !d.invertedColors }, true)
    else if key = 113 then .ok (d, false)
    else .ok (d, true)
  else if key = KEY_UP then
    .ok ({ d with gridY :=
      if d.cycle then (d.gridY - 1) % (maxNavY d + 1)
      else if 0 < d.gridY then d.gridY - 1 else d.gridY }, true)
  else if key = KEY_DOWN then
    .ok ({ d with gridY :=
      if d.cycle then (d.gridY + 1) % (maxNavY d + 1)
      else if d.gridY < maxNavY d then d.gridY + 1 else d.gridY }, true)
  else if key = KEY_LEFT then
    .ok ({ d with gridX :=
      if d.cycle then (d.gridX - 1) % (maxNavX d + 1)
      else if 0 < d.gridX then d.gridX - 1 else d.gridX }, true)
  else if key = KEY_RIGHT then
    .ok ({ d with gridX :=
      if d.cycle then (d.gridX + 1) % (maxNavX d + 1)
      else if d.gridX < maxNavX d then d.gridX + 1 else d.gridX }, true)
  else if key = 10 then
    match get_item_at_grid d.items d.gridX d.gridY with
    | none => .error .typeError
    | some (idx, item) =>
        if item.editable then
          .ok ({ d with editing := true,
                        items := modifyNth DashboardItem.enter_edit d.items idx }, true)
        else
          match item.channel, item.action with
          | some ch, some act =>
              match lookupChannel d.instruments ch with
              | none => .error .keyError
              | some _ =>
                  .ok ({ d with calls := d.calls ++ [⟨ch, some act, none⟩] }, true)
          | _, _ => .ok (d.pushLog missingBindingWarning, true)
  else if key = 105 then
    .ok ({ d with invertedColors := !d.invertedColors }, true)
  else if key = 113 then
    .ok (d, false)
  else
    .ok (d, true)

/-- Embedding of `Dashboard._handle_edit_input`: find the item under the cursor, feed it
the key, and on `end_edit` leave editing mode and dispatch the action when
a commit value was returned (`self.instruments[item.channel]` raises
`KeyError` on an unregistered or `None` channel). -/
def handle_edit_input (d : Dashboard) (key : Nat) :
    Except PyError (Dashboard × Bool) :=
  match get_item_at_grid d.items d.gridX d.gridY with
  | none => .error .typeError
  | some (idx, item) =>
      match item.handle_edit_key key with
      | .error e => .error e
      | .ok (endEdit, value, item') =>
          if endEdit then
            let item'' := item'.exit_edit
            let d' := { d with editing := false, items := setNth d.items idx item'' }
            match value with
            | none => .ok (d', true)
            | some v =>
                match item''.channel with
                | none => .error .keyError
                | some ch =>
                    match lookupChannel d'.instruments ch with
                    | none => .error .keyError
                    | some _ =>
                        .ok ({ d' with calls := d'.calls ++ [⟨ch, item''.action, some v⟩] }, true)
          else
            .ok ({ d with items := setNth d.items idx item' }, true)

/-- Embedding of `Dashboard._handle_input`: `key = none` models `getch()` returning `-1`
(no input) or raising `curses.error`, both of which keep the loop going. -/
def handle_input (d : Dashboard) (key : Option Nat) :
    Except PyError (Dashboard × Bool) :=
  match key with
  | none => .ok (d, true)
  | some k => if d.editing then handle_edit_input d k else handle_navigation_input d k

/-! ### Render-cycle pieces (Dashboard.run) -/

/-- The `selected` flag computed for each item inside `run`'s draw loop:
grid coordinates compared to the cursor for navigable items, `False`
otherwise. -/
def selected_flags (d : Dashboard) : List Bool :=
  d.items.map (fun item =>
    if item.navigable then
      decide (item.xgrid = some d.gridX ∧ item.ygrid = some d.gridY)
    else false)

/-- Apply one drained batch: `for item, new_value in updated_items:
item.value = new_value`. -/
def apply_batch (items : List DashboardItem) (batch : List (Nat × Value)) :
    List DashboardItem :=
  batch.foldl (fun its p => modifyNth (fun it => { it with value := some p.2 }) its p.1) items

/-- The queue-drain step at the top of `run`'s loop, applied to all batches
present at the start of the cycle, in arrival order. -/
def drain_queue (items : List DashboardItem) (batches : List (List (Nat × Value))) :
    List DashboardItem :=
  batches.foldl apply_batch items

/-! ### Background poll loop (Dashboard._update_data_loop) -/

/-- The items collected under a submitted future: those with
`item.channel == channel and item.data is not None`, enumerated with their
index in `self.items`. -/
def itemsBoundTo (items : List DashboardItem) (channel : Int) :
    List (Nat × DashboardItem) :=
  (enumFrom 0 items).filter
    (fun p => decide (p.2.channel = some channel) && p.2.data.isSome)

/-- The collection loop run after `future.result()` succeeds: for each
bound item, look the instrument up again by the item's channel (equal to
the polled channel for every collected item) and keep the pairs whose new
value is not `None`.  A failed dict lookup raises `KeyError`, which the
surrounding `except Exception` swallows. -/
def collect_updates_go (instruments : List (Int × Instrument)) (channel : Int) :
    List (Nat × DashboardItem) → List (Nat × Value) → Except PyError (List (Nat × Value))
  | [], acc => .ok acc
  | (i, it) :: rest, acc =>
      match lookupChannel instruments channel with
      | none => .error .keyError
      | some instrum =>
          match it.data with
          | none => collect_updates_go instruments channel rest acc
          | some field =>
              match instrum.dataGet field with
              | none => collect_updates_go instruments channel rest acc
              | some v => collect_updates_go instruments channel rest (acc ++ [(i, v)])

def collect_instrument_updates (items : List DashboardItem)
    (instruments : List (Int × Instrument)) (channel : Int) :
    Except PyError (List (Nat × Value)) :=
  collect_updates_go instruments channel (itemsBoundTo items channel) []

/-- The guard `if instrument_updates: self._data_queue.put(instrument_updates)`,
inside the per-future `try`: `some batch` when a batch is enqueued, `none`
when the batch was empty or an exception was caught and logged. -/
def enqueued_batch (items : List DashboardItem)
    (instruments : List (Int × Instrument)) (channel : Int) :
    Option (List (Nat × Value)) :=
  match collect_instrument_updates items instruments channel with
  | .ok updates => if updates.isEmpty then none else some updates
  | .error _ => none

/-! ### Registration (Dashboard.add_instruments / add_items) -/

/-- The per-instrument mutation `new.logger = self._log` performed by
`add_instruments` before registering. -/
def connect_instrument (ins : Instrument) : Instrument :=
  { ins with logger := some .dashboardLog }

/-- Embedding of `Dashboard.add_instruments`. -/
def add_instruments (d : Dashboard) (news : List Instrument) : Dashboard :=
  news.foldl
    (fun acc new =>
      let new' := connect_instrument new
      { acc with instruments := dictUpdate acc.instruments new'.channel new' })
    d

/-- Embedding of `Dashboard.add_items`. -/
def add_items (d : Dashboard) (news : List DashboardItem) : Dashboard :=
  { d with items := d.items ++ news }

/-! ### Specification-side definitions

These follow the spec's words; the theorems below compare them with the
functions embedded from the source. -/

/-- The value paired with an item index by the last update mentioning it,
in arrival order across the flattened batch sequence. -/
def lastWrite (i : Nat) (pairs : List (Nat × Value)) : Option Value :=
  (lastSat (fun p => p.1 == i) pairs).map (fun p => p.2)

/-- One step of the edit-buffer fold described by the spec: an accepted
character (digit, dot or minus) is appended, a backspace removes one
trailing character, any other non-terminating key leaves the buffer
unchanged. -/
def buffer_step (b : String) (k : Nat) : String :=
  if isDigitKey k || isDotDashKey k then b.push (Char.ofNat k)
  else if k = 127 || k = KEY_BACKSPACE then b.dropRight 1
  else b

/-- The spec's left fold of a key sequence over the empty buffer. -/
def buffer_fold (keys : List Nat) : String :=
  keys.foldl buffer_step ""

/-- Iterate `handle_edit_key` over a key sequence, threading the mutated
item (the commit flags are ignored; the claims using this runner restrict
to sequences that never end editing). -/
def run_edit_keys (it : DashboardItem) : List Nat → Except PyError DashboardItem
  | [] => .ok it
  | k :: ks =>
      match it.handle_edit_key k with
      | .error e => .error e
      | .ok (_, _, it') => run_edit_keys it' ks

/-! ### Concrete fixtures for witnesses and counterexamples -/

/-- A `Switch` (navigable, non-editable) bound to a channel. -/
def switchItem (gx gy ch : Int) : DashboardItem :=
  { xgrid := some gx, ygrid := some gy, channel := some ch, data := some "state",
    action := some "toggle", value := some (.bool false), navigable := true,
    editable := false, editBuffer := .raw none, itemEditing := false }

/-- An `Editable` item with a given buffer, cached value and edit flag. -/
def editableItem (gx gy ch : Int) (buf : EditBuffer) (v : Option Value) (ed : Bool) :
    DashboardItem :=
  { xgrid := some gx, ygrid := some gy, channel := some ch, data := some "setpoint",
    action := some "set", value := v, navigable := true, editable := true,
    editBuffer := buf, itemEditing := ed }

/-- A `Readonly` item bound to a data field. -/
def readonlyItem (ch : Int) (field : String) : DashboardItem :=
  { xgrid := none, ygrid := none, channel := some ch, data := some field,
    action := none, value := some (.num 0), navigable := false, editable := false,
    editBuffer := .raw none, itemEditing := false }

def tempInstrument : Instrument :=
  { channel := 0, data := [("state", some (.bool true)), ("temp", some (.num 21))],
    logger := none }

/-- Cursor at its default (0, 0) but the only navigable item at (1, 0). -/
def dashNoItemAtCursor : Dashboard :=
  { Dashboard.init with items := [switchItem 1 0 0], instruments := [(0, tempInstrument)] }

/-- A switch under the cursor naming channel 5, with no instrument registered. -/
def dashNoInstrument : Dashboard :=
  { Dashboard.init with items := [switchItem 0 0 5] }

/-- The dashboard mid-edit on an `Editable` at the cursor with a given buffer. -/
def dashEditing (buf : EditBuffer) : Dashboard :=
  { Dashboard.init with
      items := [editableItem 0 0 0 buf (some (.num 7)) true]
      instruments := [(0, tempInstrument)]
      editing := true }

/-- The spec's navigation scenario: two navigable items at (0,0) and (1,0),
cycling on, cursor at (0,0). -/
def dashTwoSwitches : Dashboard :=
  add_items (add_instruments Dashboard.init [tempInstrument]) [switchItem 0 0 0, switchItem 1 0 0]

/-- The scenario dashboard after one right-arrow press. -/
def dashTwoSwitchesAt1 : Dashboard :=
  { dashTwoSwitches with gridX := 1 }

/-- Freshly set-up dashboard whose single navigable item is off-cursor. -/
def dashOffCursor : Dashboard :=
  add_items Dashboard.init [switchItem 1 0 0]

/-! ## List-level helper lemmas -/

theorem getElem?_modifyNth (f : α → α) (l : List α) : ∀ (i j : Nat),
    (modifyNth f l i)[j]? = if i = j then l[j]?.map f else l[j]? := by
  induction l with
  | nil => intro i j; simp [modifyNth]
  | cons x t ih =>
      intro i j
      cases i with
      | zero => cases j <;> simp [modifyNth]
      | succ i' =>
          cases j with
          | zero => simp [modifyNth]
          | succ j' => simpa [modifyNth, Nat.succ_inj] using ih i' j'

theorem getElem?_setNth (l : List α) (i j : Nat) (a : α) :
    (setNth l i a)[j]? = if i = j then l[j]?.map (fun _ => a) else l[j]? := by
  simp [setNth, getElem?_modifyNth]

theorem setNth_self : ∀ (l : List α) (i : Nat) (a : α), l[i]? = some a → setNth l i a = l := by
  intro l
  induction l with
  | nil => intro i a h; simp at h
  | cons x t ih =>
      intro i a h
      cases i with
      | zero =>
          simp at h
          simp [setNth, modifyNth, h]
      | succ i' =>
          simp at h
          have := ih i' a h
          simpa [setNth, modifyNth] using this

theorem mem_enumFrom : ∀ (l : List α) (n i : Nat) (a : α),
    (i, a) ∈ enumFrom n l → n ≤ i ∧ l[i - n]? = some a := by
  intro l
  induction l with
  | nil => intro n i a h; simp [enumFrom] at h
  | cons x t ih =>
      intro n i a h
      rw [enumFrom, List.mem_cons] at h
      rcases h with h | h
      · obtain ⟨rfl, rfl⟩ := Prod.mk.injEq .. ▸ h
        simp
      · obtain ⟨hle, hget⟩ := ih (n + 1) i a h
        refine ⟨by omega, ?_⟩
        have hidx : i - n = (i - (n + 1)) + 1 := by omega
        rw [hidx]
        simpa using hget

theorem find_item_at_spec (x y : Int) :
    ∀ (l : List DashboardItem) (n i : Nat) (it : DashboardItem),
      find_item_at x y l n = some (i, it) →
      n ≤ i ∧ l[i - n]? = some it ∧ it.navigable = true ∧
        it.xgrid = some x ∧ it.ygrid = some y := by
  intro l
  induction l with
  | nil => intro n i it h; simp [find_item_at] at h
  | cons a t ih =>
      intro n i it h
      by_cases hc : a.navigable = true ∧ a.xgrid = some x ∧ a.ygrid = some y
      · rw [find_item_at, if_pos hc] at h
        obtain ⟨rfl, rfl⟩ : n = i ∧ a = it := by simpa using h
        simpa using hc
      · rw [find_item_at, if_neg hc] at h
        obtain ⟨hle, hget, hrest⟩ := ih (n + 1) i it h
        refine ⟨by omega, ?_, hrest⟩
        have hidx : i - n = (i - (n + 1)) + 1 := by omega
        rw [hidx]
        simpa using hget

theorem get_item_at_grid_spec (items : List DashboardItem) (x y : Int)
    (i : Nat) (it : DashboardItem)
    (h : get_item_at_grid items x y = some (i, it)) :
    items[i]? = some it ∧ it.navigable = true ∧
      it.xgrid = some x ∧ it.ygrid = some y := by
  have := find_item_at_spec x y items 0 i it h
  simpa using this

/-! ## C1 — Enter-key dispatch failures (code bug)

The claim says every failed lookup at action-dispatch time is logged as a
warning with the action skipped, and that `_handle_input` never raises.
The embedded code shows two raising paths instead: `_handle_navigation_input`
unpacks the `None` returned by `_get_item_at_grid` (a `TypeError`), and
`self.instruments[item.channel]` raises `KeyError` for an unregistered
channel — the `No instrument found for channel` logging branch guarding a
truthiness test on the looked-up object is dead code.  Only
`curses.error` is caught in `_handle_input`, so either exception escapes
`run`'s loop.  Both states below are reachable directly after setup. -/

/-- C1: with the cursor on an empty grid cell the confirm key makes the
input-handling step raise `TypeError`, and with a switch bound to an
unregistered channel it raises `KeyError`; neither failure is logged as a
warning with the action skipped, contradicting the claim. -/
theorem C1_confirm_dispatch_raises :
    handle_input dashNoItemAtCursor (some 10) = .error .typeError ∧
    handle_input dashNoInstrument (some 10) = .error .keyError := by
  decide

/-! ## C2 — Global toggle and quit keys (corrected)

`_handle_input` routes every key to `_handle_edit_input` while editing, and
`Editable.handle_edit_key` answers `(False, None)` for keys that are not
escape, enter, backspace, a digit, a dot or a minus.  So in the Editing
state the key codes of `i` (105) and `q` (113) neither toggle the
color-inversion flag nor end the main loop; the claim only holds in the
Navigating state. -/

/-- C2 counterexample: mid-edit, the quit key leaves the state unchanged
and keeps the loop running, and the toggle key does not swap the
color-inversion flag, refuting the claim for the Editing state. -/
theorem C2_editing_swallows_global_keys :
    (dashEditing (.str "4")).editing = true ∧
    handle_input (dashEditing (.str "4")) (some 113) = .ok (dashEditing (.str "4"), true) ∧
    handle_input (dashEditing (.str "4")) (some 105) = .ok (dashEditing (.str "4"), true) := by
  decide

/-- C2 amended: in the Navigating state the toggle key swaps the
color-inversion flag and the quit key terminates the main loop (with or
without navigable items); in the Editing state (an editable item under the
cursor) both keys are consumed by the edit handler and change nothing —
no toggle, no quit. -/
theorem C2_global_keys_per_state (d : Dashboard) :
    (d.editing = false →
      handle_input d (some 105) =
        .ok ({ d with invertedColors := !d.invertedColors }, true) ∧
      handle_input d (some 113) = .ok (d, false)) ∧
    (d.editing = true →
      ∀ idx it, get_item_at_grid d.items d.gridX d.gridY = some (idx, it) →
        it.editable = true →
        handle_input d (some 105) = .ok (d, true) ∧
        handle_input d (some 113) = .ok (d, true)) := by
  constructor
  · intro hmode
    by_cases hnav : (navigableItems d).isEmpty <;>
      simp [handle_input, hmode, handle_navigation_input, hnav,
        KEY_UP, KEY_DOWN, KEY_LEFT, KEY_RIGHT]
  · intro hmode idx it hget hed
    have hItem := (get_item_at_grid_spec d.items d.gridX d.gridY idx it hget).1
    have hset := setNth_self d.items idx it hItem
    constructor <;>
      · simp [handle_input, hmode, handle_edit_input, hget,
          DashboardItem.handle_edit_key, hed, isDigitKey, isDotDashKey,
          KEY_BACKSPACE, hset]
        rw [← hmode]

/-- C2 amended, witnessed mid-edit: the toggle and quit keys leave the
editing dashboard unchanged and the loop running. -/
theorem C2_global_keys_witness :
    handle_input (dashEditing (.str "4")) (some 105) = .ok (dashEditing (.str "4"), true) ∧
    handle_input (dashEditing (.str "4")) (some 113) = .ok (dashEditing (.str "4"), true) :=
  (C2_global_keys_per_state (dashEditing (.str "4"))).2 rfl 0
    (editableItem 0 0 0 (.str "4") (some (.num 7)) true) (by decide) rfl

/-! ## C4 — Selection highlight (corrected)

`run` computes `selected` independently per item as "navigable and grid
coordinates equal the cursor"; nothing forces the count of selected items
to one.  At the reachable start-up state below the cursor (0, 0) sits on
an empty cell and no item is selected; duplicated grid coordinates would
symmetrically select two. -/

/-- C4 counterexample: a freshly set-up dashboard whose only navigable
item is at (1, 0) draws zero items selected on the first render cycle,
refuting "exactly one item is drawn with selected=true". -/
theorem C4_zero_selected_reachable :
    ¬ (selected_flags dashOffCursor).count true = 1 := by
  decide

theorem countP_eq_one_of_pairwise {α : Type} (p : α → Bool) :
    ∀ l : List α, l.Pairwise (fun a b => ¬(p a = true ∧ p b = true)) →
      (∃ a ∈ l, p a = true) → l.countP p = 1 := by
  intro l
  induction l with
  | nil => intro _ hex; simp at hex
  | cons a t ih =>
      intro hpair hex
      rw [List.pairwise_cons] at hpair
      by_cases hpa : p a = true
      · have hzero : t.countP p = 0 := by
          rw [List.countP_eq_zero]
          intro b hb
          have hnot := hpair.1 b hb
          simp [hpa] at hnot
          simp [hnot]
        simp [List.countP_cons, hpa, hzero]
      · have hex' : ∃ b ∈ t, p b = true := by
          rcases hex with ⟨b, hb, hpb⟩
          rcases List.mem_cons.mp hb with rfl | hbt
          · exact absurd hpb hpa
          · exact ⟨b, hbt, hpb⟩
        simp [List.countP_cons, hpa, ih hpair.2 hex']

theorem count_true_map {α : Type} (f : α → Bool) (l : List α) :
    (l.map f).count true = l.countP f := by
  simp only [List.count, List.countP_map]
  apply List.countP_congr
  intro b _
  simp

/-- C4 amended: each item is drawn with `selected` equal to "navigable and
grid coordinates equal the cursor's" (so non-navigable items are never
selected), and when the navigable items occupy pairwise-distinct grid
coordinates and one of them lies at the cursor, exactly one item is drawn
selected. -/
theorem C4_selection_characterization (d : Dashboard)
    (hpair : d.items.Pairwise (fun a b => a.navigable = true → b.navigable = true →
        ¬(a.xgrid = b.xgrid ∧ a.ygrid = b.ygrid)))
    (hex : ∃ it ∈ d.items, it.navigable = true ∧
        it.xgrid = some d.gridX ∧ it.ygrid = some d.gridY) :
    (selected_flags d).count true = 1 ∧
    selected_flags d = d.items.map (fun it =>
      decide (it.navigable = true ∧ it.xgrid = some d.gridX ∧ it.ygrid = some d.gridY)) := by
  have hmap : selected_flags d = d.items.map (fun it =>
      decide (it.navigable = true ∧ it.xgrid = some d.gridX ∧ it.ygrid = some d.gridY)) := by
    unfold selected_flags
    apply List.map_congr_left
    intro it _
    by_cases h : it.navigable <;> simp [h]
  refine ⟨?_, hmap⟩
  rw [hmap, count_true_map]
  apply countP_eq_one_of_pairwise
  · refine hpair.imp ?_
    intro a b hab hcontra
    simp only [decide_eq_true_eq] at hcontra
    obtain ⟨⟨hna, hxa, hya⟩, hnb, hxb, hyb⟩ := hcontra
    exact hab hna hnb ⟨by rw [hxa, hxb], by rw [hya, hyb]⟩
  · rcases hex with ⟨it, hmem, hprop⟩
    exact ⟨it, hmem, by simpa using hprop⟩

/-- C4 amended, witnessed on the two-switch layout with the cursor on
(0, 0): exactly one selected flag. -/
theorem C4_selection_witness :
    (selected_flags dashTwoSwitches).count true = 1 ∧
    selected_flags dashTwoSwitches = dashTwoSwitches.items.map (fun it =>
      decide (it.navigable = true ∧ it.xgrid = some dashTwoSwitches.gridX ∧
        it.ygrid = some dashTwoSwitches.gridY)) :=
  C4_selection_characterization dashTwoSwitches (by decide) (by decide)

/-! ## C5 — Arrow-key cursor movement (confirmed) -/

/-- C5: in the Navigating state with at least one navigable item, each
arrow key moves the corresponding cursor coordinate by one step: a modulo
walk over [0, max+1) when cycling is enabled (the last two conjuncts pin
the range of the walk), and a clamped step (decrement only above 0,
increment only below max) when cycling is disabled. -/
theorem C5_cursor_movement (d : Dashboard)
    (hmode : d.editing = false)
    (hnav : (navigableItems d).isEmpty = false) :
    handle_input d (some KEY_UP) = .ok ({ d with gridY :=
        if d.cycle then (d.gridY - 1) % (maxNavY d + 1)
        else if 0 < d.gridY then d.gridY - 1 else d.gridY }, true) ∧
    handle_input d (some KEY_DOWN) = .ok ({ d with gridY :=
        if d.cycle then (d.gridY + 1) % (maxNavY d + 1)
        else if (d.gridY < maxNavY d) then d.gridY + 1 else d.gridY }, true) ∧
    handle_input d (some KEY_LEFT) = .ok ({ d with gridX :=
        if d.cycle then (d.gridX - 1) % (maxNavX d + 1)
        else if 0 < d.gridX then d.gridX - 1 else d.gridX }, true) ∧
    handle_input d (some KEY_RIGHT) = .ok ({ d with gridX :=
        if d.cycle then (d.gridX + 1) % (maxNavX d + 1)
        else if (d.gridX < maxNavX d) then d.gridX + 1 else d.gridX }, true) ∧
    (0 ≤ maxNavY d → ∀ a : Int, 0 ≤ a % (maxNavY d + 1) ∧ a % (maxNavY d + 1) < maxNavY d + 1) ∧
    (0 ≤ maxNavX d → ∀ a : Int, 0 ≤ a % (maxNavX d + 1) ∧ a % (maxNavX d + 1) < maxNavX d + 1) := by
  refine ⟨?_, ?_, ?_, ?_, ?_, ?_⟩
  · simp [handle_input, hmode, handle_navigation_input, hnav, KEY_UP]
  · simp [handle_input, hmode, handle_navigation_input, hnav,
      KEY_UP, KEY_DOWN]
  · simp [handle_input, hmode, handle_navigation_input, hnav,
      KEY_UP, KEY_DOWN, KEY_LEFT]
  · simp [handle_input, hmode, handle_navigation_input, hnav,
      KEY_UP, KEY_DOWN, KEY_LEFT, KEY_RIGHT]
  · intro hmax a
    exact ⟨Int.emod_nonneg a (by omega), Int.emod_lt_of_pos a (by omega)⟩
  · intro hmax a
    exact ⟨Int.emod_nonneg a (by omega), Int.emod_lt_of_pos a (by omega)⟩

/-- C5 witnessed on the spec's scenario: from (0, 0) with items at (0, 0)
and (1, 0) and cycling on, one right-arrow press moves the cursor to
(1, 0) and a second wraps it back to (0, 0). -/
theorem C5_cursor_witness :
    handle_input dashTwoSwitches (some KEY_RIGHT) =
      .ok (dashTwoSwitchesAt1, true) ∧
    handle_input dashTwoSwitchesAt1 (some KEY_RIGHT) =
      .ok (dashTwoSwitches, true) := by
  have h1 := (C5_cursor_movement dashTwoSwitches rfl (by decide)).2.2.2.1
  have h2 := (C5_cursor_movement dashTwoSwitchesAt1 rfl (by decide)).2.2.2.1
  refine ⟨?_, ?_⟩
  · rw [h1]
    congr 1
  · rw [h2]
    congr 1

/-! ## C6 — Queue drain, last write wins (confirmed) -/

theorem apply_batch_append (items : List DashboardItem)
    (b1 b2 : List (Nat × Value)) :
    apply_batch items (b1 ++ b2) = apply_batch (apply_batch items b1) b2 := by
  simp [apply_batch, List.foldl_append]

theorem drain_queue_flatten (batches : List (List (Nat × Value))) :
    ∀ items : List DashboardItem,
      drain_queue items batches = apply_batch items batches.flatten := by
  induction batches with
  | nil => intro items; simp [drain_queue, apply_batch]
  | cons b bs ih =>
      intro items
      have hstep : drain_queue items (b :: bs) = drain_queue (apply_batch items b) bs := rfl
      rw [hstep, ih (apply_batch items b), List.flatten_cons, apply_batch_append]

theorem lastWrite_cons (i : Nat) (p : Nat × Value) (rest : List (Nat × Value)) :
    lastWrite i (p :: rest) =
      match lastWrite i rest with
      | some v => some v
      | none => if p.1 == i then some p.2 else none := by
  cases h : lastSat (fun q => q.1 == i) rest with
  | none =>
      by_cases hp : p.1 == i <;> simp [lastWrite, lastSat, h, hp]
  | some x => simp [lastWrite, lastSat, h]

theorem apply_batch_getElem :
    ∀ (pairs : List (Nat × Value)) (items : List DashboardItem) (i : Nat),
      (apply_batch items pairs)[i]? =
        match lastWrite i pairs with
        | some v => items[i]?.map (fun it => { it with value := some v })
        | none => items[i]? := by
  intro pairs
  induction pairs with
  | nil => intro items i; simp [apply_batch, lastWrite, lastSat]
  | cons p rest ih =>
      intro items i
      rw [lastWrite_cons]
      have hstep : apply_batch items (p :: rest) =
          apply_batch (modifyNth (fun it => { it with value := some p.2 }) items p.1) rest := rfl
      rw [hstep, ih]
      by_cases hpi : p.1 = i
      · subst hpi
        cases hrest : lastWrite p.1 rest <;>
          cases hitem : items[p.1]? <;>
            simp [getElem?_modifyNth, hitem]
      · cases hrest : lastWrite i rest <;>
          simp [getElem?_modifyNth, hpi]

/-- C6: after the drain step at the top of a render cycle, the item at any
index holds the value paired with it by the last update mentioning it in
the flattened arrival-order batch sequence, and keeps its previous state
when no pending batch mentions it. -/
theorem C6_last_write_wins (items : List DashboardItem)
    (batches : List (List (Nat × Value))) (i : Nat) :
    (drain_queue items batches)[i]? =
      match lastWrite i batches.flatten with
      | some v => items[i]?.map (fun it => { it with value := some v })
      | none => items[i]? := by
  rw [drain_queue_flatten]
  exact apply_batch_getElem batches.flatten items i

/-! ## C8 — Edit-buffer accumulation as a left fold (confirmed) -/

theorem handle_edit_key_nonterminating (it : DashboardItem) (s : String) (k : Nat)
    (hE : it.editable = true) (hb : it.editBuffer = .str s)
    (h27 : k ≠ 27) (h10 : k ≠ 10) :
    ∃ v, it.handle_edit_key k =
      .ok (false, v, { it with editBuffer := .str (buffer_step s k) }) := by
  by_cases h127 : k = 127
  · refine ⟨some 0, ?_⟩
    subst h127
    simp [DashboardItem.handle_edit_key, hE, hb, buffer_step, isDigitKey,
      isDotDashKey, KEY_BACKSPACE]
  · by_cases h263 : k = KEY_BACKSPACE
    · refine ⟨some 0, ?_⟩
      subst h263
      simp [DashboardItem.handle_edit_key, hE, hb, buffer_step, isDigitKey,
        isDotDashKey, KEY_BACKSPACE]
    · by_cases hd : (isDigitKey k || isDotDashKey k) = true
      · refine ⟨some 0, ?_⟩
        simp [DashboardItem.handle_edit_key, hE, hb, h27, h10, h127, h263,
          buffer_step, hd]
      · refine ⟨none, ?_⟩
        simp only [Bool.not_eq_true] at hd
        simp [DashboardItem.handle_edit_key, hE, hb, h27, h10, h127, h263,
          buffer_step, hd]
        rw [← hb, ← hE]

theorem run_edit_keys_fold :
    ∀ (keys : List Nat) (it : DashboardItem) (s : String),
      it.editable = true → it.editBuffer = .str s →
      (∀ k ∈ keys, k ≠ 27 ∧ k ≠ 10) →
      ∃ it', run_edit_keys it keys = .ok it' ∧
        it'.editBuffer = .str (keys.foldl buffer_step s) ∧ it'.editable = true := by
  intro keys
  induction keys with
  | nil =>
      intro it s hE hb _
      exact ⟨it, rfl, by simpa using hb, hE⟩
  | cons k ks ih =>
      intro it s hE hb hkeys
      obtain ⟨v, hstep⟩ := handle_edit_key_nonterminating it s k hE hb
        (hkeys k (by simp)).1 (hkeys k (by simp)).2
      obtain ⟨it', hrun, hbuf, hEd⟩ :=
        ih { it with editBuffer := .str (buffer_step s k) } (buffer_step s k)
          hE rfl (fun k' hk' => hkeys k' (by simp [hk']))
      refine ⟨it', ?_, by simpa using hbuf, hEd⟩
      rw [run_edit_keys, hstep]
      simpa using hrun

/-- C8: starting from the empty buffer installed by `enter_edit`, running
any Editing-state key sequence that never ends editing leaves the buffer
equal to the spec's left fold: accepted characters (digits, dot, minus)
appended in arrival order, each backspace removing one trailing character,
all other keys leaving the buffer unchanged. -/
theorem C8_buffer_is_left_fold (it : DashboardItem) (keys : List Nat)
    (hE : it.editable = true)
    (hkeys : ∀ k ∈ keys, k ≠ 27 ∧ k ≠ 10) :
    ∃ it', run_edit_keys it.enter_edit keys = .ok it' ∧
      it'.editBuffer = .str (buffer_fold keys) := by
  have hE' : it.enter_edit.editable = true := by
    simp [DashboardItem.enter_edit, hE]
  have hb : it.enter_edit.editBuffer = .str "" := by
    simp [DashboardItem.enter_edit, hE]
  obtain ⟨it', h1, h2, _⟩ := run_edit_keys_fold keys it.enter_edit "" hE' hb hkeys
  exact ⟨it', h1, by simpa [buffer_fold] using h2⟩

/-- C8 witnessed on the key sequence 1, 2, backspace, dot, 5. -/
theorem C8_buffer_fold_witness :
    ∃ it', run_edit_keys
        (editableItem 0 0 0 (.raw (some (.num 0))) (some (.num 0)) false).enter_edit
        [49, 50, 263, 46, 53] = .ok it' ∧
      it'.editBuffer = .str (buffer_fold [49, 50, 263, 46, 53]) :=
  C8_buffer_is_left_fold _ _ (by decide) (by decide)

/-! ## C7 — Confirm with a parsing buffer commits the parsed value (confirmed) -/

/-- C7: an Editing-state confirm key on an editable item whose buffer
parses as a number exits edit mode (dashboard flag and item flag), stores
the parsed value in the item's cache, and synchronously dispatches the
item's bound action with that value. -/
theorem C7_confirm_commits_parsed_value (d : Dashboard) (idx : Nat)
    (item : DashboardItem) (s : String) (q : ℚ) (ch : Int) (ins : Instrument)
    (hmode : d.editing = true)
    (hget : get_item_at_grid d.items d.gridX d.gridY = some (idx, item))
    (hed : item.editable = true)
    (hbuf : item.editBuffer = .str s)
    (hparse : parseFloat s = some q)
    (hch : item.channel = some ch)
    (hins : lookupChannel d.instruments ch = some ins) :
    ∃ d' it', handle_input d (some 10) = .ok (d', true) ∧
      d'.editing = false ∧
      d'.items[idx]? = some it' ∧
      it'.value = some (.num q) ∧
      it'.itemEditing = false ∧
      d'.calls = d.calls ++ [⟨ch, item.action, some q⟩] := by
  have hitem := (get_item_at_grid_spec d.items d.gridX d.gridY idx item hget).1
  refine ⟨{ d with editing := false, items := setNth d.items idx { item with value := some (.num q), itemEditing := false }, calls := d.calls ++ [⟨ch, item.action, some q⟩] }, { item with value := some (.num q), itemEditing := false }, ?_, rfl, ?_, rfl, rfl, rfl⟩
  · simp [handle_input, hmode, handle_edit_input, hget,
      DashboardItem.handle_edit_key, hed, hbuf, pyFloat, hparse,
      DashboardItem.exit_edit, hch, hins]
  · rw [getElem?_setNth]
    simp [hitem]

/-- C7 witnessed on the spec's scenario: buffer "12.5", confirm pressed →
edit mode exits and the bound action receives 12.5. -/
theorem C7_confirm_witness :
    ∃ d' it', handle_input (dashEditing (.str "12.5")) (some 10) = .ok (d', true) ∧
      d'.editing = false ∧
      d'.items[0]? = some it' ∧
      it'.value = some (.num (25 / 2)) ∧
      it'.itemEditing = false ∧
      d'.calls = (dashEditing (.str "12.5")).calls ++
        [⟨0, (editableItem 0 0 0 (.str "12.5") (some (.num 7)) true).action, some (25 / 2)⟩] :=
  C7_confirm_commits_parsed_value (dashEditing (.str "12.5")) 0
    (editableItem 0 0 0 (.str "12.5") (some (.num 7)) true) "12.5" (25 / 2) 0
    tempInstrument rfl (by decide) rfl rfl
    (by norm_num +decide [parseFloat, parseUnsigned, List.takeWhile_cons,
      List.dropWhile_cons, show digitsVal ['1', '2'] = 12 from by decide,
      show digitsVal ['5'] = 5 from by decide])
    rfl rfl

/-! ## C3 — Confirm with a non-parsing buffer falls back to zero (confirmed) -/

/-- C3: an Editing-state confirm key on an editable item whose buffer does
not parse as a number exits edit mode (dashboard flag and item flag),
leaves the item's cached value unchanged, and still synchronously
dispatches the item's bound action with the fallback value 0. -/
theorem C3_parse_failure_commits_zero (d : Dashboard) (idx : Nat)
    (item : DashboardItem) (s : String) (ch : Int) (ins : Instrument)
    (hmode : d.editing = true)
    (hget : get_item_at_grid d.items d.gridX d.gridY = some (idx, item))
    (hed : item.editable = true)
    (hbuf : item.editBuffer = .str s)
    (hparse : parseFloat s = none)
    (hch : item.channel = some ch)
    (hins : lookupChannel d.instruments ch = some ins) :
    ∃ d' it', handle_input d (some 10) = .ok (d', true) ∧
      d'.editing = false ∧
      d'.items[idx]? = some it' ∧
      it'.value = item.value ∧
      it'.itemEditing = false ∧
      d'.calls = d.calls ++ [⟨ch, item.action, some 0⟩] := by
  have hitem := (get_item_at_grid_spec d.items d.gridX d.gridY idx item hget).1
  refine ⟨{ d with editing := false, items := setNth d.items idx { item with editBuffer := .raw item.value, itemEditing := false }, calls := d.calls ++ [⟨ch, item.action, some 0⟩] }, { item with editBuffer := .raw item.value, itemEditing := false }, ?_, rfl, ?_, rfl, rfl, rfl⟩
  · simp [handle_input, hmode, handle_edit_input, hget,
      DashboardItem.handle_edit_key, hed, hbuf, pyFloat, hparse,
      DashboardItem.exit_edit, hch, hins]
  · rw [getElem?_setNth]
    simp [hitem]

/-- C3 witnessed on the non-parsing buffer "-": edit mode exits, the
cached value 7 is untouched, and the action is dispatched with 0. -/
theorem C3_parse_failure_witness :
    ∃ d' it', handle_input (dashEditing (.str "-")) (some 10) = .ok (d', true) ∧
      d'.editing = false ∧
      d'.items[0]? = some it' ∧
      it'.value = (editableItem 0 0 0 (.str "-") (some (.num 7)) true).value ∧
      it'.itemEditing = false ∧
      d'.calls = (dashEditing (.str "-")).calls ++
        [⟨0, (editableItem 0 0 0 (.str "-") (some (.num 7)) true).action, some 0⟩] :=
  C3_parse_failure_commits_zero (dashEditing (.str "-")) 0
    (editableItem 0 0 0 (.str "-") (some (.num 7)) true) "-" 0
    tempInstrument rfl (by decide) rfl rfl (by decide) rfl rfl

/-! ## C9 — Enqueued poll batches are non-empty and well-formed (confirmed) -/

theorem collect_updates_go_spec (instruments : List (Int × Instrument)) (channel : Int) :
    ∀ (pending : List (Nat × DashboardItem)) (acc res : List (Nat × Value)),
      collect_updates_go instruments channel pending acc = .ok res →
      ∀ p ∈ res, p ∈ acc ∨
        ∃ it instrum field, (p.1, it) ∈ pending ∧ it.data = some field ∧
          lookupChannel instruments channel = some instrum ∧
          instrum.dataGet field = some p.2 := by
  intro pending
  induction pending with
  | nil =>
      intro acc res h p hp
      rw [collect_updates_go] at h
      obtain rfl : acc = res := by simpa using h
      exact .inl hp
  | cons q rest ih =>
      intro acc res h p hp
      obtain ⟨i, it⟩ := q
      rw [collect_updates_go] at h
      cases hlook : lookupChannel instruments channel with
      | none => rw [hlook] at h; simp at h
      | some instrum =>
          rw [hlook] at h
          dsimp only at h
          cases hdata : it.data with
          | none =>
              rw [hdata] at h
              dsimp only at h
              rcases ih acc res h p hp with hacc | ⟨it', ins', f', hmem, hd', hl', hv'⟩
              · exact .inl hacc
              · rw [hlook] at hl'
                exact .inr ⟨it', ins', f', List.mem_cons_of_mem _ hmem, hd', hl', hv'⟩
          | some field =>
              rw [hdata] at h
              dsimp only at h
              cases hval : instrum.dataGet field with
              | none =>
                  rw [hval] at h
                  dsimp only at h
                  rcases ih acc res h p hp with hacc | ⟨it', ins', f', hmem, hd', hl', hv'⟩
                  · exact .inl hacc
                  · rw [hlook] at hl'
                    exact .inr ⟨it', ins', f', List.mem_cons_of_mem _ hmem, hd', hl', hv'⟩
              | some v =>
                  rw [hval] at h
                  dsimp only at h
                  rcases ih (acc ++ [(i, v)]) res h p hp with hacc | ⟨it', ins', f', hmem, hd', hl', hv'⟩
                  · rcases List.mem_append.mp hacc with h1 | h2
                    · exact .inl h1
                    · obtain rfl : p = (i, v) := by simpa using h2
                      exact .inr ⟨it, instrum, field, by simp, hdata, rfl, hval⟩
                  · rw [hlook] at hl'
                    exact .inr ⟨it', ins', f', List.mem_cons_of_mem _ hmem, hd', hl', hv'⟩

/-- C9: every batch the poll loop enqueues after a successful instrument
update is non-empty, and each of its pairs binds an item of the dashboard
whose channel is the polled one and whose data field is set, to the
instrument's current (non-null) value for that field. -/
theorem C9_enqueued_batch_sound (items : List DashboardItem)
    (instruments : List (Int × Instrument)) (channel : Int)
    (batch : List (Nat × Value))
    (henq : enqueued_batch items instruments channel = some batch) :
    batch ≠ [] ∧
    ∀ p ∈ batch, ∃ it field instrum,
      items[p.1]? = some it ∧
      it.channel = some channel ∧
      it.data = some field ∧
      lookupChannel instruments channel = some instrum ∧
      instrum.dataGet field = some p.2 := by
  unfold enqueued_batch at henq
  cases hcol : collect_instrument_updates items instruments channel with
  | error e => rw [hcol] at henq; simp at henq
  | ok updates =>
      rw [hcol] at henq
      dsimp only at henq
      by_cases hempty : updates.isEmpty
      · rw [if_pos hempty] at henq; exact absurd henq (by simp)
      · rw [if_neg hempty] at henq
        obtain rfl : updates = batch := by simpa using henq
        refine ⟨by simpa [List.isEmpty_iff] using hempty, ?_⟩
        intro p hp
        unfold collect_instrument_updates at hcol
        rcases collect_updates_go_spec instruments channel
            (itemsBoundTo items channel) [] updates hcol p hp with
          habs | ⟨it, instrum, field, hmem, hdata, hlook, hval⟩
        · simp at habs
        · obtain ⟨hmem', hcond⟩ := List.mem_filter.mp hmem
          have hget := (mem_enumFrom items 0 p.1 it hmem').2
          simp only [Bool.and_eq_true, decide_eq_true_eq] at hcond
          have hch : it.channel = some channel := hcond.1
          exact ⟨it, field, instrum, by simpa using hget, hch, hdata, hlook, hval⟩

/-- C9 witnessed on one readonly item bound to the polled instrument's
"temp" field. -/
theorem C9_enqueued_batch_witness :
    ([(0, Value.num 21)] : List (Nat × Value)) ≠ [] ∧
    ∀ p ∈ ([(0, Value.num 21)] : List (Nat × Value)), ∃ it field instrum,
      [readonlyItem 0 "temp"][p.1]? = some it ∧
      it.channel = some 0 ∧
      it.data = some field ∧
      lookupChannel [(0, tempInstrument)] 0 = some instrum ∧
      instrum.dataGet field = some p.2 :=
  C9_enqueued_batch_sound [readonlyItem 0 "temp"] [(0, tempInstrument)] 0
    [(0, Value.num 21)] (by decide)

/-! ## C10 — Instrument registry keeps the most recently added per channel
(confirmed) -/

theorem lookupChannel_dictUpdate :
    ∀ (m : List (Int × Instrument)) (k : Int) (v : Instrument) (c : Int),
      lookupChannel (dictUpdate m k v) c =
        if k = c then some v else lookupChannel m c := by
  intro m
  induction m with
  | nil =>
      intro k v c
      by_cases h : k = c <;> simp [dictUpdate, lookupChannel, h]
  | cons kv rest ih =>
      intro k v c
      obtain ⟨k', v'⟩ := kv
      by_cases hk : k' = k
      · subst hk
        by_cases hc : k' = c <;> simp [dictUpdate, lookupChannel, hc]
      · by_cases hc : k' = c
        · subst hc
          have hkc : ¬(k = k') := fun h => hk h.symm
          simp [dictUpdate, hk, lookupChannel, hkc]
        · simp [dictUpdate, hk, lookupChannel, hc, ih k v c]

/-- C10: after any sequence of `add_instruments` calls the registry maps
each channel to the most recently added instrument carrying it (silently
replacing earlier ones), and every added instrument is connected to the
dashboard's logger before registration. -/
theorem C10_registry_maps_last_added (d : Dashboard) (news : List Instrument) (c : Int) :
    lookupChannel (add_instruments d news).instruments c =
      (match lastSat (fun ins => decide (ins.channel = c)) news with
       | some ins => some (connect_instrument ins)
       | none => lookupChannel d.instruments c) ∧
    ∀ ins ∈ news, (connect_instrument ins).logger = some .dashboardLog := by
  refine ⟨?_, fun ins _ => rfl⟩
  induction news generalizing d with
  | nil => simp [add_instruments, lastSat]
  | cons n rest ih =>
      have hstep : add_instruments d (n :: rest) = add_instruments { d with instruments := dictUpdate d.instruments (connect_instrument n).channel (connect_instrument n) } rest := rfl
      rw [hstep, ih]
      cases hlast : lastSat (fun ins => decide (ins.channel = c)) rest with
      | some x => simp [lastSat, hlast]
      | none =>
          by_cases hc : n.channel = c <;>
            simp [lastSat, hlast, lookupChannel_dictUpdate, connect_instrument, hc]

def instrAlt : Instrument :=
  { channel := 0, data := [("temp", some (.num 5))], logger := none }

/-- C10 witnessed on two instruments sharing channel 0: the registry holds
the later one, with its logger connected. -/
theorem C10_registry_witness :
    lookupChannel (add_instruments Dashboard.init [tempInstrument, instrAlt]).instruments 0 =
      (match lastSat (fun ins => decide (ins.channel = 0)) [tempInstrument, instrAlt] with
       | some ins => some (connect_instrument ins)
       | none => lookupChannel Dashboard.init.instruments 0) ∧
    ∀ ins ∈ [tempInstrument, instrAlt], (connect_instrument ins).logger = some .dashboardLog :=
  C10_registry_maps_last_added Dashboard.init [tempInstrument, instrAlt] 0
